import Mathlib

/-!
Shallow embedding of the health-check engine of `astro-health-checker`
(src/src/components/health.astro). The stateful and effectful parts are made
explicit:

* the HTTP transaction of one probe is abstracted by a `FetchResult` input
  (the response, or the rejection caught by the `catch` block);
* the `globalThis` cache cell is passed in and returned as an explicit
  `Option CacheData` value;
* wall-clock time is an explicit `Int` parameter in milliseconds (the value
  of `Date.now()` captured at line 103);
* the outbound email request built by `sendEmail` is reified as an
  `EmailRequest` value, and the count of outbound notification calls of a
  run is the length of the list of such requests.
-/

namespace HealthChecker

/-- HTTP methods of the endpoint schema (content.config.ts). -/
inductive Method where
  | GET | POST | PUT | DELETE | PATCH | HEAD | OPTIONS
deriving DecidableEq, Repr

/-- Embeds `EndpointEntryData` (health.astro lines 8-16): one endpoint
definition as read from the content collection. The `body` payload is opaque
to the checker; it is modelled by its serialized text. -/
structure EndpointEntryData where
  name : String
  url : String
  method : Method
  expectedStatus : Nat
  description : Option String
  headers : Option (List (String × String))
  body : Option String
deriving DecidableEq, Repr

/-- The `status` field of `EndpointStatus` (line 31). -/
inductive Status where
  | Healthy | Unhealthy | Error | Pending
deriving DecidableEq, Repr, BEq

/-- Embeds `EndpointStatus` (lines 20-35): the classified outcome of one
check, carrying the definition fields plus the dynamic status data. -/
structure EndpointStatus where
  name : String
  url : String
  method : Method
  expectedStatus : Nat
  description : Option String
  headers : Option (List (String × String))
  body : Option String
  status : Status
  statusCode : Option Nat
  statusText : Option String
  errorMessage : Option String
deriving DecidableEq, Repr

/-- The outcome of the `fetch` call of one probe as observed by the code:
either the transaction completed with a status code and status text
(the `try` path reaching line 138), or `fetch` rejected and the exception,
carrying a `name` and a `message`, was caught (line 170). A probe that hits
the 5-second deadline is aborted by the `AbortController` and surfaces here
as `failed "AbortError" msg`. -/
inductive FetchResult where
  | completed (status : Nat) (statusText : String)
  | failed (errName : String) (errMessage : String)
deriving DecidableEq, Repr

/-- Whether `pat` is a character-wise leading segment of `s`. -/
def hasPrefixChars : List Char → List Char → Bool
  | [], _ => true
  | _ :: _, [] => false
  | p :: ps, c :: cs => decide (p = c) && hasPrefixChars ps cs

/-- JavaScript `String.prototype.includes` at the character level: `pat`
occurs as a contiguous segment of the string. -/
def containsSubChars (pat : List Char) : List Char → Bool
  | [] => hasPrefixChars pat []
  | c :: cs => hasPrefixChars pat (c :: cs) || containsSubChars pat cs

/-- `String.prototype.toLowerCase`, character by character. -/
def lowerChars (s : String) : List Char := s.data.map Char.toLower

/-- Embeds lines 172-175: the message of a caught fetch error is replaced by
the fixed timeout text when the error is an `AbortError` or its lower-cased
message mentions a timeout or an abort. -/
def classifyCatchMessage (errName errMessage : String) : String :=
  if errName = "AbortError"
      ∨ containsSubChars "timed out".data (lowerChars errMessage) = true
      ∨ containsSubChars "aborted".data (lowerChars errMessage) = true then
    "Request timed out or was aborted."
  else
    errMessage

/-- Embeds the probe body (lines 136-189): the `EndpointStatus` value
returned for one endpoint, as a function of the fetch outcome. All failure
paths resolve into a returned outcome (the function is total): nothing is
raised to the caller. -/
def probeEndpoint (e : EndpointEntryData) : FetchResult → EndpointStatus
  | .completed code text =>
    { name := e.name
      url := e.url
      method := e.method
      expectedStatus := e.expectedStatus
      description := e.description
      headers := e.headers
      body := e.body
      status := if code = e.expectedStatus then .Healthy else .Unhealthy
      statusCode := some code
      statusText := some text
      errorMessage :=
        if code = e.expectedStatus then none
        else some ("Expected status " ++ toString e.expectedStatus
          ++ " but got " ++ toString code) }
  | .failed errName errMessage =>
    { name := e.name
      url := e.url
      method := e.method
      expectedStatus := e.expectedStatus
      description := e.description
      headers := e.headers
      body := e.body
      status := .Error
      statusCode := none
      statusText := none
      errorMessage := some (classifyCatchMessage errName errMessage) }

/-- Embeds the `failedEndpoints.push` of lines 140-155: the entry pushed
onto `failedEndpoints` for one probe, when any. Only the completed-with-
mismatch path pushes; the `catch` path (lines 170-189) returns its Error
outcome without pushing. -/
def probeFailure (e : EndpointEntryData) : FetchResult → Option EndpointStatus
  | .completed code text =>
    if code = e.expectedStatus then none
    else some
      { name := e.name
        url := e.url
        method := e.method
        expectedStatus := e.expectedStatus
        description := e.description
        headers := e.headers
        body := e.body
        status := .Unhealthy
        statusCode := some code
        statusText := some text
        errorMessage := some ("Expected status " ++ toString e.expectedStatus
          ++ " but got " ++ toString code) }
  | .failed _ _ => none

/-- Embeds the fan-out of lines 110-191: `Promise.all` over
`endpointCollectionEntries.map` associates the result of each probe with the
index of its definition, so the `statuses` sequence is the index-wise map of
`probeEndpoint` over the definitions paired with their fetch outcomes. The
fetch outcomes are supplied as a list aligned with the definitions.

The second component is the `failedEndpoints` accumulation in the special
case where the concurrent callbacks complete in input order; the general
completion-order semantics of the `push` at line 142 is `pushedFailures`
below, and only completion-order-invariant facts about this component
(emptiness, length, multiset content) transfer to the program. -/
def runChecks (entries : List EndpointEntryData) (results : List FetchResult) :
    List EndpointStatus × List EndpointStatus :=
  (List.zipWith probeEndpoint entries results,
   (entries.zip results).filterMap fun p => probeFailure p.1 p.2)

/-- Embeds the `failedEndpoints.push` of line 142 across the concurrent
fan-out: each callback pushes its entry, when any, after its own fetch
settles, so the pushes land in fetch-completion order. `order` lists the
probe indices in the order their callbacks completed (a permutation of the
indices when every probe settles exactly once); the accumulated list is the
pushed entries of those probes, in that order. -/
def pushedFailures (entries : List EndpointEntryData)
    (results : List FetchResult) (order : List Nat) : List EndpointStatus :=
  order.filterMap fun i =>
    ((entries.zip results).get? i).bind fun p => probeFailure p.1 p.2

/-- Embeds `CacheData` (lines 47-50): the cached statuses plus the
`lastChecked` timestamp in milliseconds. -/
structure CacheData where
  statuses : List EndpointStatus
  lastChecked : Int
deriving DecidableEq, Repr

/-- Embeds `CACHE_DURATION_MS = 60 * 1000` (line 69). -/
def CACHE_DURATION_MS : Int := 60 * 1000

/-- Renders a `Status` the way JavaScript string concatenation renders the
`status` field (line 76). -/
def statusText : Status → String
  | .Healthy => "Healthy"
  | .Unhealthy => "Unhealthy"
  | .Error => "Error"
  | .Pending => "Pending"

/-- Embeds the HTML list built by `sendEmail` (lines 74-78). -/
def emailContent (endpoints : List EndpointStatus) : String :=
  "<ul>"
    ++ String.join (endpoints.map fun e =>
        "<li>" ++ e.name ++ ": " ++ statusText e.status ++ "</li>")
    ++ "</ul>"

/-- The outbound POST to the notification provider built by `sendEmail`
(lines 80-92), reified as a value. -/
structure EmailRequest where
  url : String
  authorization : String
  fromAddr : String
  toAddr : String
  subject : String
  html : String
deriving DecidableEq, Repr

/-- Embeds the request-construction part of `sendEmail` (lines 73-92): the
single outbound call it issues, as a function of the credential string and
the failed endpoints. -/
def sendEmail (apiKey : String) (endpoints : List EndpointStatus) : EmailRequest :=
  { url := "https://api.resend.com/emails"
    authorization := "Bearer " ++ apiKey
    fromAddr := "health@jsft.dk"
    toAddr := "jojokbh@gmail.com"
    subject := "Health check failed"
    html := "<strong>" ++ emailContent endpoints ++ "</strong>" }

/-- What the provider interaction inside the `try` of `sendEmail` resolves
to: a response whose body was parsed, a response whose body failed to parse,
or a transport error rejecting the fetch. -/
inductive SendResult where
  | ok (statusCode : Nat) (body : String)
  | badBody (statusCode : Nat) (errMessage : String)
  | transportError (errMessage : String)
deriving DecidableEq, Repr

/-- Embeds the `try`/`catch` of `sendEmail` (lines 79-96): every send result
resolves to normal completion. The returned value is the message passed to
`console.error` when the `catch` ran, and `none` otherwise; nothing is ever
raised to the caller (the function is total into this type, with no
exception channel). The body-parse failure of `response.json()` happens
inside the `try`, so it is caught too; a non-success provider status is not
even inspected. -/
def sendEmailCompletion : SendResult → Option String
  | .ok _ _ => none
  | .badBody _ m => some m
  | .transportError m => some m

/-- JavaScript truthiness of `import.meta.env.PUBLIC_RESEND_API_KEY`
(line 193): the variable is set and non-empty. -/
def keyTruthy : Option String → Bool
  | some k => k ≠ ""
  | none => false

/-- Embeds the notification gate of lines 193-195: the list of outbound
notification calls fired by one refresh run, given the credential and the
`failedEndpoints` list. `sendEmail` is invoked at most once, and each
invocation issues exactly one outbound call. -/
def notifierRequests (apiKey : Option String) (failed : List EndpointStatus) :
    List EmailRequest :=
  match apiKey with
  | some k => if k ≠ "" ∧ failed.length > 0 then [sendEmail k failed] else []
  | none => []

/-- The observable result of one `getEndpointStatuses` invocation:
the value returned to the caller, the cache cell after the call, how many
probes were fired, the outbound notification calls, and the message logged
by `sendEmail` when a send was attempted and its `catch` ran. -/
structure RunResult where
  returned : CacheData
  cache : Option CacheData
  probesFired : Nat
  requests : List EmailRequest
  notifyLog : Option String
deriving DecidableEq, Repr

/-- Embeds the cache-miss path of `getEndpointStatuses` (lines 110-199):
run all probes, fire the notification gate, install the new cache value
with `lastChecked := now`, and return it. -/
def refreshRun (now : Int) (entries : List EndpointEntryData)
    (results : List FetchResult) (apiKey : Option String)
    (sendResult : SendResult) : RunResult :=
  let checked := runChecks entries results
  let reqs := notifierRequests apiKey checked.2
  let newCacheData : CacheData := { statuses := checked.1, lastChecked := now }
  { returned := newCacheData
    cache := some newCacheData
    probesFired := entries.length
    requests := reqs
    notifyLog := if reqs.length > 0 then sendEmailCompletion sendResult else none }

/-- Embeds `getEndpointStatuses` (lines 100-200). The `globalThis` cache
cell is the explicit `cache` argument; `now` is the value of `Date.now()`
captured at line 103, before any probe is launched; `results` are the fetch
outcomes the network would deliver to the probes of a refresh;
`sendResult` is the provider interaction a notification attempt would
observe. -/
def getEndpointStatuses (cache : Option CacheData) (now : Int)
    (entries : List EndpointEntryData) (results : List FetchResult)
    (apiKey : Option String) (sendResult : SendResult) : RunResult :=
  match cache with
  | some c =>
    if now - c.lastChecked < CACHE_DURATION_MS then
      { returned := c
        cache := some c
        probesFired := 0
        requests := []
        notifyLog := none }
    else
      refreshRun now entries results apiKey sendResult
  | none => refreshRun now entries results apiKey sendResult

/-- Timing model of the fan-out: the probes of a refresh run are launched at
or after the moment `now` captured at line 103, and a probe whose HTTP
transaction plus classification takes `d` milliseconds completes no earlier
than `now + d`. This is the earliest completion instant of such a probe. -/
def probeCompletion (now : Int) (d : Nat) : Int := now + d

/-- A sample endpoint definition used by concrete witnesses. -/
def E0 : EndpointEntryData :=
  { name := "A"
    url := "http://ok.test"
    method := .GET
    expectedStatus := 200
    description := none
    headers := none
    body := none }

/-- A second sample endpoint definition used by concrete witnesses. -/
def E1 : EndpointEntryData :=
  { name := "B"
    url := "http://bad.test"
    method := .GET
    expectedStatus := 200
    description := none
    headers := none
    body := none }

/-- Claim C2: for a probe whose transaction completes, the outcome is
Healthy with no error message when the received status equals the expected
one; otherwise it is Unhealthy, carries the received status code, and its
error message is exactly the mismatch text with both numbers substituted. -/
theorem probe_completed_classification (e : EndpointEntryData) (code : Nat)
    (text : String) :
    (code = e.expectedStatus →
      (probeEndpoint e (.completed code text)).status = Status.Healthy ∧
      (probeEndpoint e (.completed code text)).errorMessage = none) ∧
    (code ≠ e.expectedStatus →
      (probeEndpoint e (.completed code text)).status = Status.Unhealthy ∧
      (probeEndpoint e (.completed code text)).statusCode = some code ∧
      (probeEndpoint e (.completed code text)).errorMessage =
        some ("Expected status " ++ toString e.expectedStatus
          ++ " but got " ++ toString code)) := by
  constructor
  · intro h
    simp [probeEndpoint, h]
  · intro h
    simp [probeEndpoint, h]

/-- Witness for C2 at concrete inputs: a matching 200 and a mismatching
500 against an expectation of 200. -/
theorem probe_completed_classification_witness :
    (probeEndpoint E0 (.completed 200 "OK")).status = Status.Healthy ∧
    (probeEndpoint E0 (.completed 200 "OK")).errorMessage = none ∧
    (probeEndpoint E0 (.completed 500 "ISE")).status = Status.Unhealthy ∧
    (probeEndpoint E0 (.completed 500 "ISE")).statusCode = some 500 ∧
    (probeEndpoint E0 (.completed 500 "ISE")).errorMessage =
      some "Expected status 200 but got 500" := by
  obtain ⟨h1, _⟩ := probe_completed_classification E0 200 "OK"
  obtain ⟨_, h4⟩ := probe_completed_classification E0 500 "ISE"
  have ha := h1 rfl
  have hb := h4 (by decide)
  exact ⟨ha.1, ha.2, hb.1, hb.2.1, hb.2.2⟩

/-- Claim C5: a probe aborted by its deadline surfaces as a caught
AbortError; its outcome has status Error, no status code, no status text,
and the fixed timeout message. The failure resolves into this returned
outcome (`probeEndpoint` is total), so nothing is raised to the Checker. -/
theorem probe_timeout_outcome (e : EndpointEntryData)
    (errName errMessage : String) (h : errName = "AbortError") :
    (probeEndpoint e (.failed errName errMessage)).status = Status.Error ∧
    (probeEndpoint e (.failed errName errMessage)).statusCode = none ∧
    (probeEndpoint e (.failed errName errMessage)).statusText = none ∧
    (probeEndpoint e (.failed errName errMessage)).errorMessage =
      some "Request timed out or was aborted." := by
  refine ⟨rfl, rfl, rfl, ?_⟩
  simp [probeEndpoint, classifyCatchMessage, h]

/-- Witness for C5 at a concrete aborted probe. -/
theorem probe_timeout_outcome_witness :
    "AbortError" = "AbortError" ∧
    ((probeEndpoint E0 (.failed "AbortError" "The operation was aborted")).status
        = Status.Error ∧
      (probeEndpoint E0 (.failed "AbortError" "The operation was aborted")).statusCode
        = none ∧
      (probeEndpoint E0 (.failed "AbortError" "The operation was aborted")).statusText
        = none ∧
      (probeEndpoint E0 (.failed "AbortError" "The operation was aborted")).errorMessage
        = some "Request timed out or was aborted.") :=
  ⟨rfl, probe_timeout_outcome E0 "AbortError" "The operation was aborted" rfl⟩

/-- Claim C10: for a probe classified Unhealthy, the entry pushed onto
`failedEndpoints` is field-for-field the same record as the outcome
returned into the `statuses` sequence. -/
theorem failure_entry_matches_outcome (e : EndpointEntryData) (code : Nat)
    (text : String) (h : code ≠ e.expectedStatus) :
    probeFailure e (.completed code text) =
      some (probeEndpoint e (.completed code text)) := by
  simp [probeFailure, probeEndpoint, h]

/-- Witness for C10 at a concrete mismatching probe. -/
theorem failure_entry_matches_outcome_witness :
    500 ≠ E0.expectedStatus ∧
    probeFailure E0 (.completed 500 "ISE") =
      some (probeEndpoint E0 (.completed 500 "ISE")) :=
  ⟨by decide, failure_entry_matches_outcome E0 500 "ISE" (by decide)⟩

/-- Claim C9 (code bug): the sender and recipient of the outbound
notification are the fixed constants of lines 87-88, independent of the
credential or of any environment configuration, although the repository
README instructs configuring EMAIL_FROM / EMAIL_TO in `.env`. -/
theorem sendEmail_hardcoded_addresses (apiKey : String)
    (endpoints : List EndpointStatus) :
    (sendEmail apiKey endpoints).fromAddr = "health@jsft.dk" ∧
    (sendEmail apiKey endpoints).toAddr = "jojokbh@gmail.com" :=
  ⟨rfl, rfl⟩

/-- Claim C3: the output sequence has one outcome per definition, and the
outcome at position i is the probe of definition i, carrying that
definition's name, url, method and expectedStatus. `Promise.all` over
`entries.map` associates each settled value with the index of the promise
that produced it, independently of completion order, which is what the
index-wise `zipWith` of `runChecks` embeds. -/
theorem checker_order_preservation (entries : List EndpointEntryData)
    (results : List FetchResult) (h : results.length = entries.length) :
    (runChecks entries results).1.length = entries.length ∧
    ∀ (i : Nat) (e : EndpointEntryData) (r : FetchResult),
      entries.get? i = some e → results.get? i = some r →
      (runChecks entries results).1.get? i = some (probeEndpoint e r) ∧
      (probeEndpoint e r).name = e.name ∧
      (probeEndpoint e r).url = e.url ∧
      (probeEndpoint e r).method = e.method ∧
      (probeEndpoint e r).expectedStatus = e.expectedStatus := by
  constructor
  · simp [runChecks, List.length_zipWith, h]
  · intro i e r he hr
    refine ⟨?_, ?_, ?_, ?_, ?_⟩
    · simp only [List.get?_eq_getElem?] at he hr ⊢
      simp [runChecks, List.getElem?_zipWith', he, hr]
    all_goals cases r <;> rfl

/-- Witness for C3 on a concrete two-endpoint run, checked at index 1. -/
theorem checker_order_preservation_witness :
    ([FetchResult.completed 200 "OK", FetchResult.completed 500 "ISE"].length
      = [E0, E1].length) ∧
    (runChecks [E0, E1]
        [FetchResult.completed 200 "OK", FetchResult.completed 500 "ISE"]).1.length
      = [E0, E1].length ∧
    (runChecks [E0, E1]
        [FetchResult.completed 200 "OK", FetchResult.completed 500 "ISE"]).1.get? 1
      = some (probeEndpoint E1 (.completed 500 "ISE")) := by
  have h := checker_order_preservation [E0, E1]
    [FetchResult.completed 200 "OK", FetchResult.completed 500 "ISE"] rfl
  exact ⟨rfl, h.1, (h.2 1 E1 (.completed 500 "ISE") rfl rfl).1⟩

/-- One probe's contribution to `failedEndpoints` is exactly its outcome
when that outcome is Unhealthy, and nothing otherwise. -/
theorem probeFailure_toggle (e : EndpointEntryData) (r : FetchResult) :
    probeFailure e r =
      if (probeEndpoint e r).status = Status.Unhealthy
      then some (probeEndpoint e r) else none := by
  cases r with
  | completed code text =>
    by_cases h : code = e.expectedStatus
    · simp [probeFailure, probeEndpoint, h]
    · simp [probeFailure, probeEndpoint, h]
  | failed errName errMessage =>
    simp [probeFailure, probeEndpoint]

/-- Counterexample to claim C1, on two independent grounds. First, a run
whose single probe is aborted (the completion order of a one-probe run is
necessarily `[0]`) yields an outcome whose status is Error, hence not
Healthy, yet its accumulated `failedEndpoints` sequence is empty: the
`catch` branch never pushes, so Error outcomes are omitted. Second, a run
with two mismatching probes whose callbacks complete in the order `[1, 0]`
accumulates the two Unhealthy entries swapped relative to the input order,
so the sequence is not input-preserving either. -/
theorem failures_subset_omits_error_cex :
    ((runChecks [E0] [FetchResult.failed "AbortError" "boom"]).1.get
        ⟨0, by decide⟩).status ≠ Status.Healthy ∧
    ((runChecks [E0] [FetchResult.failed "AbortError" "boom"]).1.get
        ⟨0, by decide⟩).status = Status.Error ∧
    pushedFailures [E0] [FetchResult.failed "AbortError" "boom"] [0] = [] ∧
    pushedFailures [E0, E1]
        [FetchResult.completed 500 "ISE", FetchResult.completed 502 "BG"]
        [1, 0] ≠
      (runChecks [E0, E1]
          [FetchResult.completed 500 "ISE", FetchResult.completed 502 "BG"]).1.filter
        (fun o => decide (o.status = Status.Unhealthy)) := by
  exact ⟨by decide, rfl, rfl, by decide⟩

/-- Helper: the filterMap of positional lookups over the full index range
of a list is the filterMap of the list itself. -/
theorem filterMap_range_lookup {α β : Type _} (l : List α) (g : α → Option β) :
    (List.range l.length).filterMap (fun i => (l.get? i).bind g) =
      l.filterMap g := by
  induction l with
  | nil => rfl
  | cons a as ih =>
    have hcomp : ((fun i => (((a :: as).get? i).bind g)) ∘ Nat.succ)
        = fun i => ((as.get? i).bind g) := rfl
    rw [List.length_cons, List.range_succ_eq_map, List.filterMap_cons,
      List.filterMap_map, hcomp, ih, List.filterMap_cons]
    rfl

/-- Helper: when each probe has exactly one fetch outcome, accumulating the
pushes in input order gives the input-order failures component of
`runChecks`. -/
theorem pushedFailures_range_eq (entries : List EndpointEntryData)
    (results : List FetchResult) (h : results.length = entries.length) :
    pushedFailures entries results (List.range entries.length) =
      (runChecks entries results).2 := by
  have hz : (entries.zip results).length = entries.length := by
    simp [List.length_zip, h]
  simp only [pushedFailures, runChecks]
  rw [← hz, filterMap_range_lookup]

/-- Helper: the input-order failures component of `runChecks` is exactly
the Unhealthy filter of the outcomes sequence; this is the stepping stone
from the completion-order accumulation to the filter. -/
theorem inputOrderFailures_eq_unhealthy_filter (entries : List EndpointEntryData)
    (results : List FetchResult) :
    (runChecks entries results).2 =
      (runChecks entries results).1.filter
        fun o => decide (o.status = Status.Unhealthy) := by
  simp only [runChecks]
  induction entries generalizing results with
  | nil => simp
  | cons e es ih =>
    cases results with
    | nil => simp
    | cons r rs =>
      simp only [List.zip_cons_cons, List.filterMap_cons, List.zipWith_cons_cons,
        List.filter_cons, probeFailure_toggle e r]
      by_cases h : (probeEndpoint e r).status = Status.Unhealthy
      · simp [h, ih rs]
      · simp [h, ih rs]

/-- Claim C1 as amended: for every input sequence of endpoint definitions,
with one fetch outcome per definition, and every order in which the
concurrent callbacks complete (any permutation of the probe indices), the
accumulated `failedEndpoints` sequence contains exactly the outcomes whose
status is Unhealthy: it is a permutation — arranged in fetch-completion
order, not necessarily input order — of the Unhealthy subsequence of the
`outcomes` sequence. Outcomes classified Error are omitted from it and no
Healthy outcome appears in it. -/
theorem failures_perm_unhealthy (entries : List EndpointEntryData)
    (results : List FetchResult) (order : List Nat)
    (hlen : results.length = entries.length)
    (horder : order.Perm (List.range entries.length)) :
    (pushedFailures entries results order).Perm
      ((runChecks entries results).1.filter
        fun o => decide (o.status = Status.Unhealthy)) := by
  have h1 : (pushedFailures entries results order).Perm
      (pushedFailures entries results (List.range entries.length)) :=
    List.Perm.filterMap _ horder
  rw [pushedFailures_range_eq entries results hlen,
    inputOrderFailures_eq_unhealthy_filter entries results] at h1
  exact h1

/-- Witness for C1 as amended: a concrete two-endpoint run, both probes
mismatching, whose callbacks complete in reversed order. -/
theorem failures_perm_unhealthy_witness :
    [FetchResult.completed 500 "ISE", FetchResult.completed 502 "BG"].length
      = [E0, E1].length ∧
    List.Perm [1, 0] (List.range [E0, E1].length) ∧
    (pushedFailures [E0, E1]
        [FetchResult.completed 500 "ISE", FetchResult.completed 502 "BG"]
        [1, 0]).Perm
      ((runChecks [E0, E1]
          [FetchResult.completed 500 "ISE", FetchResult.completed 502 "BG"]).1.filter
        fun o => decide (o.status = Status.Unhealthy)) := by
  refine ⟨rfl, by decide, ?_⟩
  exact failures_perm_unhealthy [E0, E1]
    [FetchResult.completed 500 "ISE", FetchResult.completed 502 "BG"]
    [1, 0] rfl (by decide)

/-- Claim C4: a cached value younger than 60 seconds is returned unchanged,
with no probe fired and no notification attempted; otherwise the checker
runs, its result is installed as the new single cached value replacing any
prior one, and that new value is returned. -/
theorem cache_freshness_behavior (cache : Option CacheData) (now : Int)
    (entries : List EndpointEntryData) (results : List FetchResult)
    (apiKey : Option String) (sendResult : SendResult) :
    (∀ c, cache = some c → now - c.lastChecked < CACHE_DURATION_MS →
      getEndpointStatuses cache now entries results apiKey sendResult =
        { returned := c, cache := some c, probesFired := 0, requests := [],
          notifyLog := none }) ∧
    ((∀ c, cache = some c → ¬ now - c.lastChecked < CACHE_DURATION_MS) →
      (getEndpointStatuses cache now entries results apiKey sendResult).returned =
        { statuses := (runChecks entries results).1, lastChecked := now } ∧
      (getEndpointStatuses cache now entries results apiKey sendResult).cache =
        some (getEndpointStatuses cache now entries results apiKey
          sendResult).returned ∧
      (getEndpointStatuses cache now entries results apiKey
          sendResult).probesFired = entries.length) := by
  constructor
  · intro c hc hfresh
    subst hc
    simp [getEndpointStatuses, hfresh]
  · intro hstale
    cases cache with
    | none => exact ⟨rfl, rfl, rfl⟩
    | some c =>
      have hn := hstale c rfl
      simp only [getEndpointStatuses, if_neg hn]
      exact ⟨rfl, rfl, rfl⟩

/-- Witness for C4: a fresh cache at age one second is served unchanged,
and a cache at age 99 seconds is replaced by a fresh run. -/
theorem cache_freshness_behavior_witness :
    ((2000 : Int) - (1000 : Int) < CACHE_DURATION_MS ∧
      getEndpointStatuses (some { statuses := [], lastChecked := 1000 }) 2000
          [E0] [FetchResult.completed 200 "OK"] none (.ok 200 "") =
        { returned := { statuses := [], lastChecked := 1000 }
          cache := some { statuses := [], lastChecked := 1000 }
          probesFired := 0
          requests := []
          notifyLog := none }) ∧
    ((getEndpointStatuses (some { statuses := [], lastChecked := 1000 }) 100000
          [E0] [FetchResult.completed 200 "OK"] none (.ok 200 "")).returned =
        { statuses := (runChecks [E0] [FetchResult.completed 200 "OK"]).1
          lastChecked := 100000 } ∧
      (getEndpointStatuses (some { statuses := [], lastChecked := 1000 }) 100000
          [E0] [FetchResult.completed 200 "OK"] none (.ok 200 "")).cache =
        some (getEndpointStatuses (some { statuses := [], lastChecked := 1000 })
          100000 [E0] [FetchResult.completed 200 "OK"] none (.ok 200 "")).returned ∧
      (getEndpointStatuses (some { statuses := [], lastChecked := 1000 }) 100000
          [E0] [FetchResult.completed 200 "OK"] none (.ok 200 "")).probesFired =
        [E0].length) := by
  have h1 := (cache_freshness_behavior
    (some { statuses := [], lastChecked := 1000 }) 2000 [E0]
    [FetchResult.completed 200 "OK"] none (.ok 200 "")).1
    { statuses := [], lastChecked := 1000 } rfl (by decide)
  have h2 := (cache_freshness_behavior
    (some { statuses := [], lastChecked := 1000 }) 100000 [E0]
    [FetchResult.completed 200 "OK"] none (.ok 200 "")).2
    (fun c hc => by injection hc with h; subst h; decide)
  exact ⟨⟨by decide, h1⟩, h2⟩

/-- Claim C6: for one refresh run, zero notification calls are made when
the failures subset is empty or the credential is absent, and exactly one
call is made when the credential is present and truthy and the subset is
non-empty, whatever its size. -/
theorem notifier_gating (now : Int) (entries : List EndpointEntryData)
    (results : List FetchResult) (apiKey : Option String)
    (sendResult : SendResult) :
    ((runChecks entries results).2 = [] →
      (refreshRun now entries results apiKey sendResult).requests = []) ∧
    (keyTruthy apiKey = true → (runChecks entries results).2 ≠ [] →
      (refreshRun now entries results apiKey sendResult).requests.length = 1) ∧
    (apiKey = none →
      (refreshRun now entries results apiKey sendResult).requests = []) := by
  refine ⟨?_, ?_, ?_⟩
  · intro h
    cases apiKey with
    | none => rfl
    | some k => simp [refreshRun, notifierRequests, h]
  · intro hk hne
    cases apiKey with
    | none => simp [keyTruthy] at hk
    | some k =>
      simp only [keyTruthy, decide_eq_true_eq] at hk
      simp [refreshRun, notifierRequests, hk, List.length_pos.mpr hne]
  · intro h
    subst h
    rfl

/-- Witness for C6: a run with one mismatching endpoint makes exactly one
call with a credential and zero calls without one. -/
theorem notifier_gating_witness :
    keyTruthy (some "rk") = true ∧
    (runChecks [E1] [FetchResult.completed 500 "ISE"]).2 ≠ [] ∧
    (refreshRun 0 [E1] [FetchResult.completed 500 "ISE"] (some "rk")
        (.ok 200 "")).requests.length = 1 ∧
    (refreshRun 0 [E1] [FetchResult.completed 500 "ISE"] none
        (.ok 200 "")).requests = [] := by
  refine ⟨by decide, by decide, ?_, ?_⟩
  · exact (notifier_gating 0 [E1] [FetchResult.completed 500 "ISE"]
      (some "rk") (.ok 200 "")).2.1 (by decide) (by decide)
  · exact (notifier_gating 0 [E1] [FetchResult.completed 500 "ISE"] none
      (.ok 200 "")).2.2 rfl

/-- Claim C7: the notification interaction is fire-and-forget and its
errors are caught inside `sendEmail` (`sendEmailCompletion` is a total
function with no exception channel), so the value returned to the caller,
the installed cache value, and even the outbound requests of a run are the
same whatever the provider interaction resolves to. -/
theorem notification_failure_isolated (cache : Option CacheData) (now : Int)
    (entries : List EndpointEntryData) (results : List FetchResult)
    (apiKey : Option String) (r₁ r₂ : SendResult) :
    (getEndpointStatuses cache now entries results apiKey r₁).returned =
      (getEndpointStatuses cache now entries results apiKey r₂).returned ∧
    (getEndpointStatuses cache now entries results apiKey r₁).cache =
      (getEndpointStatuses cache now entries results apiKey r₂).cache ∧
    (getEndpointStatuses cache now entries results apiKey r₁).requests =
      (getEndpointStatuses cache now entries results apiKey r₂).requests := by
  cases cache with
  | none => exact ⟨rfl, rfl, rfl⟩
  | some c =>
    by_cases h : now - c.lastChecked < CACHE_DURATION_MS
    · simp [getEndpointStatuses, h]
    · simp [getEndpointStatuses, h, refreshRun]

/-- Counterexample to claim C8: the timestamp installed by a refresh run is
the `Date.now()` captured before the probes were launched (line 103), so a
run whose single probe takes one millisecond stores a checkedAt strictly
earlier than that probe's completion instant. -/
theorem checkedAt_before_completion_cex :
    (getEndpointStatuses none 0 [E0] [FetchResult.completed 200 "OK"] none
        (SendResult.ok 200 "")).returned.lastChecked < probeCompletion 0 1 := by
  decide

/-- Claim C8 as amended: the checkedAt installed by a refresh run is the
time captured at the start of the run, before the probes were launched; it
is therefore never later (rather than never earlier) than any probe's
completion instant. -/
theorem checkedAt_is_run_start (cache : Option CacheData) (now : Int)
    (entries : List EndpointEntryData) (results : List FetchResult)
    (apiKey : Option String) (sendResult : SendResult)
    (h : ∀ c, cache = some c → ¬ now - c.lastChecked < CACHE_DURATION_MS) :
    (getEndpointStatuses cache now entries results apiKey
        sendResult).returned.lastChecked = now ∧
    ∀ d : Nat,
      (getEndpointStatuses cache now entries results apiKey
          sendResult).returned.lastChecked ≤ probeCompletion now d := by
  have hres : (getEndpointStatuses cache now entries results apiKey
      sendResult).returned.lastChecked = now := by
    cases cache with
    | none => rfl
    | some c => simp [getEndpointStatuses, h c rfl, refreshRun]
  refine ⟨hres, fun d => ?_⟩
  rw [hres]
  unfold probeCompletion
  omega

/-- Witness for C8 as amended, on a concrete empty-cache run. -/
theorem checkedAt_is_run_start_witness :
    (getEndpointStatuses none 0 [E0] [FetchResult.completed 200 "OK"] none
        (SendResult.ok 200 "")).returned.lastChecked = 0 ∧
    (getEndpointStatuses none 0 [E0] [FetchResult.completed 200 "OK"] none
        (SendResult.ok 200 "")).returned.lastChecked ≤ probeCompletion 0 5 := by
  have h := checkedAt_is_run_start none 0 [E0] [FetchResult.completed 200 "OK"]
    none (.ok 200 "") (fun c hc => nomatch hc)
  exact ⟨h.1, h.2 5⟩

end HealthChecker
